import Mathlib

/-!
Verification of the beauty-battle Telegram bot (src/bot.py) against its
design specification.  The sqlite tables created by `init_db`
(src/bot.py lines 82-160) are modelled as lists of rows; the per-user
conversation dictionaries `user_states` / `user_data` (lines 42-43) as
functions from a user id to an optional entry; each handler becomes a pure
function from the relevant state to the new state plus the user-visible
outcome.  Python / sqlite failure modes that the handlers hit are modelled
explicitly where they occur.
-/

namespace BeautyBattle

/-- A row of the `photos` table (src/bot.py lines 99-124): contestants.
`approved` is the INTEGER 0/1 flag, `votes` the INTEGER counter added with
DEFAULT 0.  The `created_at` column is never read by the handlers and is
omitted. -/
structure Photo where
  id : Nat
  name : String
  file_id : String
  media_type : String
  approved : Bool
  votes : Int
deriving Repr, DecidableEq

/-- A row of the `suggestions` table (src/bot.py lines 87-96).
`status` is one of the strings "pending" / "accepted" / "rejected". -/
structure Suggestion where
  id : Nat
  name : String
  file_id : String
  media_type : String
  suggested_by : Nat
  status : String
deriving Repr, DecidableEq

/-- A row of the `user_votes` table (src/bot.py lines 127-133).  The table
is declared with `PRIMARY KEY (user_id, photo_id)` and has no other columns
the handlers read (`created_at` omitted). -/
structure UserVote where
  user_id : Nat
  photo_id : Nat
deriving Repr, DecidableEq

/-- A row of the `tournament_settings` table (src/bot.py lines 136-144).
Note the column names: `tournament_duration` and `is_active` (they matter
for `handle_user_state`, which spells them differently). -/
structure TournamentSettings where
  id : Nat
  required_votes : Int
  tournament_duration : Int
  is_active : Bool
  current_tournament_start : Nat
deriving Repr, DecidableEq

/-- The sqlite database `facemash.db`.  The `_seq` fields model the
AUTOINCREMENT sequences of the three tables with integer primary keys. -/
structure DB where
  photos : List Photo
  suggestions : List Suggestion
  user_votes : List UserVote
  tournament_settings : List TournamentSettings
  photos_seq : Nat
  suggestions_seq : Nat
  tournament_seq : Nat
deriving Repr, DecidableEq

/-- `SELECT id FROM tournament_settings WHERE is_active = 1` returned a row. -/
def DB.anyActiveTournament (db : DB) : Bool :=
  db.tournament_settings.any (·.is_active)

/-- The rows of `tournament_settings` with `is_active = 1`. -/
def DB.activeTournaments (db : DB) : List TournamentSettings :=
  db.tournament_settings.filter (·.is_active)

/-- Number of active tournament rows. -/
def DB.activeCount (db : DB) : Nat :=
  db.activeTournaments.length

/-- `SELECT 1 FROM user_votes WHERE user_id = ? AND photo_id = ?` is non-empty. -/
def DB.hasVoted (db : DB) (u pid : Nat) : Bool :=
  db.user_votes.any fun v => v.user_id == u && v.photo_id == pid

/-- `SELECT COUNT(*) FROM photos WHERE approved = 1`. -/
def DB.countApproved (db : DB) : Nat :=
  (db.photos.filter (·.approved)).length

/-- The uniqueness constraint declared on the `user_votes` table:
`PRIMARY KEY (user_id, photo_id)` (src/bot.py lines 127-133) — no two rows
share the same (user_id, photo_id) pair. -/
def votesUnique (db : DB) : Prop :=
  db.user_votes.Pairwise fun a b => ¬(a.user_id = b.user_id ∧ a.photo_id = b.photo_id)

/-- An `INSERT INTO user_votes (user_id, photo_id) VALUES (?, ?)` as sqlite
executes it against the declared primary key: a duplicate pair makes the
INSERT fail (`none`); otherwise the row is appended.  This models the
store-level constraint itself; `handle_vote`, the only caller of such an
INSERT in the source (line 1157), errors out before reaching it. -/
def insert_user_vote (db : DB) (u pid : Nat) : Option DB :=
  if db.hasVoted u pid then none
  else some { db with user_votes := db.user_votes ++ [⟨u, pid⟩] }

/-- The administrator id constant (src/bot.py line 46). -/
def ADMIN_ID : Nat := 1758948212

/-- Result of Python's name lookup for the global `DB_NAME`, read at
src/bot.py lines 1132 and 2239.  Those two reads are the only occurrences
of `DB_NAME` in the module — it is never assigned — so the lookup raises
`NameError`; `none` models that.  (Every other handler passes the literal
string 'facemash.db' to `sqlite3.connect` instead.) -/
def DB_NAME : Option String := none

/-! ### Voting: `handle_vote` (src/bot.py lines 1114-1198) -/

/-- The user-visible outcome of a vote callback.  `success` carries the
contestant name and the post-increment vote count of the success message
(line 1183); `genericError` is the catch-all answer of the `except` block
at line 1193 ("Произошла ошибка при голосовании"). -/
inductive VoteOutcome
  | success (name : String) (votes : Int)
  | noTournament
  | alreadyVoted
  | notFoundOrNotApproved
  | genericError
deriving Repr, DecidableEq

/-- `handle_vote` (src/bot.py lines 1114-1198).  Its body opens with
`conn = sqlite3.connect(DB_NAME)` (line 1132); `DB_NAME` is unbound, so the
call raises `NameError`, the `except` at line 1191 answers the generic
error, and `conn` is still `None` so the `finally` closes nothing: the
database is untouched.  The `some` branch shows what the rest of the body
would do if the name were bound: after the active-tournament check
(line 1136) the duplicate-vote check at line 1142 runs
`SELECT id FROM user_votes ...` — the `user_votes` table has no `id`
column (schema lines 127-133) — so `sqlite3.OperationalError` is raised
and the same `except` fires before any INSERT or UPDATE. -/
def handle_vote (db : DB) (user_id photo_id : Nat) : DB × VoteOutcome :=
  match DB_NAME with
  | none => (db, .genericError)
  | some _ =>
    if !db.anyActiveTournament then (db, .noTournament)
    else (db, .genericError)

/-! ### Win-condition evaluation: `check_tournament_completion`
    (src/bot.py lines 1200-1248) -/

/-- `COUNT(*) FROM photos p, tournament_settings t WHERE p.approved = 1 AND
t.is_active = 1 AND p.votes >= t.required_votes` is positive (lines
1206-1216): some approved photo has reached the threshold of some active
tournament row. -/
def DB.thresholdReached (db : DB) : Bool :=
  db.photos.any fun p =>
    p.approved && db.tournament_settings.any fun t =>
      t.is_active && decide (t.required_votes ≤ p.votes)

/-- One step of the winner scan: keep the row with the larger vote count,
keeping the earlier row on ties. -/
def maxStep (acc : Option Photo) (p : Photo) : Option Photo :=
  match acc with
  | none => some p
  | some w => if w.votes < p.votes then some p else some w

/-- `SELECT ... FROM photos WHERE approved = 1 ORDER BY votes DESC LIMIT 1`
(lines 1218-1224): a row of maximal vote count among approved photos.
sqlite does not specify which row is returned on ties; the model takes the
first row attaining the maximum, and no theorem below depends on the
tie choice. -/
def selectWinner (photos : List Photo) : Option Photo :=
  (photos.filter (·.approved)).foldl maxStep none

/-- `check_tournament_completion` (src/bot.py lines 1200-1248): if the
threshold count is positive, pick the winner and run
`UPDATE tournament_settings SET is_active = 0 WHERE is_active = 1`
(line 1232); otherwise do nothing.  Returns the new database and the
announced winner, if any. -/
def check_tournament_completion (db : DB) : DB × Option Photo :=
  if db.thresholdReached then
    match selectWinner db.photos with
    | some w =>
      ({ db with tournament_settings := db.tournament_settings.map fun t =>
          if t.is_active then { t with is_active := false } else t },
       some w)
    | none => (db, none)
  else (db, none)

/-! ### Moderation: `handle_suggestion_decision` (src/bot.py lines 621-744) -/

/-- The user-visible outcome of an accept/reject callback. -/
inductive DecisionOutcome
  | notAdmin
  | notFound
  | alreadyProcessed
  | accepted (name : String)
  | rejected (name : String)
  | dbError
deriving Repr, DecidableEq

/-- Injected sqlite failures for the two statements of the decision
transaction (spec §4.2 requires atomicity exactly against such failures):
the `INSERT INTO photos` at lines 673-676 and the
`UPDATE suggestions SET status = ...` at line 683 / line 709. -/
structure SqlFailure where
  insert_photo_fails : Bool
  update_status_fails : Bool
deriving Repr, DecidableEq

/-- No injected failure: every statement succeeds. -/
def noFailure : SqlFailure := ⟨false, false⟩

/-- `UPDATE suggestions SET status = ? WHERE id = ?`. -/
def setSuggestionStatus (l : List Suggestion) (sid : Nat) (st : String) :
    List Suggestion :=
  l.map fun s => if s.id = sid then { s with status := st } else s

/-- `handle_suggestion_decision` (src/bot.py lines 621-744).  `action` is
`parts[0]` of the callback data, "accept" or "reject" (the handler filter at
line 621 admits only these two prefixes); any non-"accept" action takes the
`else` (reject) branch, as in the source.  On accept, the INSERT into
`photos` (approved = 1, votes = column default 0, name/file_id/media_type
copied from the suggestion) and the status UPDATE run in one transaction
committed at line 685; if either raises, the `except sqlite3.Error` at
line 699 rolls the whole transaction back.  Reject updates the status only
(lines 709-710). -/
def handle_suggestion_decision (db : DB) (caller : Nat) (action : String)
    (suggestion_id : Nat) (fail : SqlFailure) : DB × DecisionOutcome :=
  if caller ≠ ADMIN_ID then (db, .notAdmin)
  else
    match db.suggestions.find? (fun s => s.id == suggestion_id) with
    | none => (db, .notFound)
    | some s =>
      if s.status ≠ "pending" then (db, .alreadyProcessed)
      else if action = "accept" then
        if fail.insert_photo_fails || fail.update_status_fails then
          (db, .dbError)
        else
          ({ db with
              photos := db.photos ++
                [⟨db.photos_seq, s.name, s.file_id, s.media_type, true, 0⟩],
              photos_seq := db.photos_seq + 1,
              suggestions := setSuggestionStatus db.suggestions suggestion_id
                "accepted" },
           .accepted s.name)
      else
        if fail.update_status_fails then (db, .dbError)
        else
          ({ db with
              suggestions := setSuggestionStatus db.suggestions suggestion_id
                "rejected" },
           .rejected s.name)

/-! ### Tournament lifecycle (src/bot.py lines 2097-2201) -/

/-- Outcome of `start_new_tournament`. -/
inductive StartOutcome
  | alreadyActive
  | notEnoughParticipants
  | started
deriving Repr, DecidableEq

/-- `start_new_tournament` (src/bot.py lines 2097-2144): refuse when an
active row exists (line 2105) or fewer than 2 approved photos exist
(line 2113); otherwise insert a row with `required_votes = 15`,
`tournament_duration = 24`, `is_active = 1` and start timestamp `now`
(lines 2118-2121). -/
def start_new_tournament (db : DB) (now : Nat) : DB × StartOutcome :=
  if db.anyActiveTournament then (db, .alreadyActive)
  else if db.countApproved < 2 then (db, .notEnoughParticipants)
  else
    ({ db with
        tournament_settings := db.tournament_settings ++
          [⟨db.tournament_seq, 15, 24, true, now⟩],
        tournament_seq := db.tournament_seq + 1 },
     .started)

/-- Outcome of `stop_tournament`, with the reported summary counts. -/
inductive StopOutcome
  | noActive
  | stopped (participants total_votes : Nat) (required : Int)
deriving Repr, DecidableEq

/-- `stop_tournament` (src/bot.py lines 2147-2201): fetch the first active
row with its summary counts; if none, report so; else set that row's
`is_active` to 0. -/
def stop_tournament (db : DB) : DB × StopOutcome :=
  match db.tournament_settings.find? (·.is_active) with
  | none => (db, .noActive)
  | some t =>
    ({ db with
        tournament_settings := db.tournament_settings.map fun r =>
          if r.id = t.id then { r with is_active := false } else r },
     .stopped db.countApproved db.user_votes.length t.required_votes)

/-! ### Conversation state (src/bot.py lines 30-36, 42-43, 76-80) -/

/-- The `UserStates` constants (src/bot.py lines 30-36).  `START` is the
spec's IDLE. -/
inductive UserState
  | START
  | WAITING_NAME
  | WAITING_MEDIA
  | PREVIEW_SUBMISSION
  | WAITING_VOTES_COUNT
  | WAITING_TOURNAMENT_TIME
deriving Repr, DecidableEq

/-- The per-user scratch bag stored in `user_data[user_id]` (keys as the
source writes them; a `none` field is an absent key). -/
structure UserData where
  name : Option String := none
  file_id : Option String := none
  media_type : Option String := none
  preview_message_id : Option Nat := none
  votes_count : Option Int := none
deriving Repr, DecidableEq

/-- The `user_states` dict: `none` means the user id is not a key. -/
abbrev StateMap := Nat → Option UserState

/-- The `user_data` dict: `none` means the user id is not a key. -/
abbrev DataMap := Nat → Option UserData

/-- `get_user_state` (src/bot.py lines 76-77):
`user_states.get(user_id, UserStates.START)`. -/
def get_user_state (m : StateMap) (u : Nat) : UserState :=
  (m u).getD .START

/-! ### `/start` (src/bot.py lines 767-802) -/

/-- `start_command` (src/bot.py lines 767-802), conversation-state part
(lines 774-777): if the user is a key of `user_states` with a state other
than `START`, reset the state to `START` and pop the user's `user_data`
entry; otherwise both dicts are left as they are.  (The rest of the handler
only sends messages.) -/
def start_command (states : StateMap) (data : DataMap) (u : Nat) :
    StateMap × DataMap :=
  match states u with
  | some s =>
    if s ≠ .START then
      (fun x => if x = u then some .START else states x,
       fun x => if x = u then none else data x)
    else (states, data)
  | none => (states, data)

/-! ### Name entry: `handle_name` (src/bot.py lines 213-260) -/

/-- The whitespace class used by `str.strip()` (src/bot.py line 227) and,
with Python 3's default Unicode matching, by the regex class `\s`
(line 240).  Both predicates are CPython's Py_UNICODE_ISSPACE: the ASCII
whitespace characters U+0009-U+000D and U+0020, the control separators
U+001C-U+001F, NEL U+0085, NBSP U+00A0, and the Unicode space, line and
paragraph separators U+1680, U+2000-U+200A, U+2028, U+2029, U+202F,
U+205F, U+3000. -/
def pyIsSpace (c : Char) : Bool :=
  (0x09 ≤ c.val && c.val ≤ 0x0D) || c.val = 0x20 ||
  (0x1C ≤ c.val && c.val ≤ 0x1F) || c.val = 0x85 || c.val = 0xA0 ||
  c.val = 0x1680 || (0x2000 ≤ c.val && c.val ≤ 0x200A) ||
  c.val = 0x2028 || c.val = 0x2029 || c.val = 0x202F ||
  c.val = 0x205F || c.val = 0x3000

/-- `str.strip()`: remove leading and trailing whitespace. -/
def pyStrip (s : String) : String :=
  String.mk (((s.data.dropWhile pyIsSpace).reverse.dropWhile pyIsSpace).reverse)

/-- `str.lower()` on the character ranges the program compares against:
ASCII upper-case letters and the Cyrillic upper-case letters А-Я and Ё.
(The only use is the comparison with the cancel sentinel "❌ отмена",
which contains exactly these ranges; other characters pass through.) -/
def pyLowerChar (c : Char) : Char :=
  if 65 ≤ c.val && c.val ≤ 90 then Char.ofNat (c.val.toNat + 32)
  else if 0x410 ≤ c.val && c.val ≤ 0x42F then Char.ofNat (c.val.toNat + 32)
  else if c.val = 0x401 then Char.ofNat 0x451
  else c

/-- `str.lower()` applied characterwise. -/
def pyLower (s : String) : String :=
  String.mk (s.data.map pyLowerChar)

/-- The character class of the validation regex
`^[а-яА-ЯёЁa-zA-Z0-9\s-]+$` at src/bot.py line 240: Cyrillic letters
а-я / А-Я / ё / Ё, ASCII Latin letters, ASCII digits, the `\s` whitespace
class, and the hyphen.  Letters of any other script are NOT in the class. -/
def allowedNameChar (c : Char) : Bool :=
  (0x430 ≤ c.val && c.val ≤ 0x44F) || (0x410 ≤ c.val && c.val ≤ 0x42F) ||
  c = 'ё' || c = 'Ё' ||
  ('a' ≤ c && c ≤ 'z') || ('A' ≤ c && c ≤ 'Z') ||
  ('0' ≤ c && c ≤ '9') || pyIsSpace c || c = '-'

/-- The full validation the code applies to the stripped text: length in
[2, 50] (line 235) and the regex match (line 240; the regex `+` needs a
non-empty string, which the length bound subsumes). -/
def validName (name : String) : Bool :=
  2 ≤ name.length && name.length ≤ 50 && name.data.all allowedNameChar

/-- The user-visible outcome of `handle_name`. -/
inductive NameOutcome
  | cancelled
  | lengthError
  | charsetError
  | stored
  | genericError
deriving Repr, DecidableEq

/-- `handle_name` (src/bot.py lines 213-260).  The text is stripped
(line 227); the cancel sentinel check `name.lower() == "❌ отмена"`
(line 230) runs `cancel_proposal`, which resets the state to `START` and
pops the bag (lines 747-764); then the length check (line 235) and the
regex check (line 240) re-prompt leaving everything unchanged.  On success
`user_data[user_id]['name'] = name` (line 245) — a `KeyError` if the user
has no bag, caught at line 258 before `set_user_state` runs — then the
state moves to `WAITING_MEDIA` (line 246). -/
def handle_name (states : StateMap) (data : DataMap) (u : Nat)
    (text : String) : StateMap × DataMap × NameOutcome :=
  let name := pyStrip text
  if pyLower name = "❌ отмена" then
    (fun x => if x = u then some .START else states x,
     fun x => if x = u then none else data x,
     .cancelled)
  else if name.length < 2 || 50 < name.length then (states, data, .lengthError)
  else if !(name.data.all allowedNameChar) then (states, data, .charsetError)
  else
    match data u with
    | none => (states, data, .genericError)
    | some bag =>
      (fun x => if x = u then some .WAITING_MEDIA else states x,
       fun x => if x = u then some { bag with name := some name } else data x,
       .stored)

/-! ### Pair selection: `start_voting` (src/bot.py lines 1038-1111) -/

/-- The rows of the eligibility query at lines 1075-1085: approved photos
for which no `user_votes` row of this voter exists. -/
def eligiblePhotos (db : DB) (u : Nat) : List Photo :=
  db.photos.filter fun p => p.approved && !(db.hasVoted u p.id)

/-- The user-visible outcome of `start_voting`.  `allVoted` is the reply
"🏁 Вы уже проголосовали за всех участниц!" (line 1091) — an informational
message, not an error. -/
inductive VotingOutcome
  | noTournament
  | allVoted
  | pairSent (pair : List Photo)
deriving Repr, DecidableEq

/-- `start_voting` (src/bot.py lines 1038-1111): refuse if no tournament is
active (line 1066); otherwise take the eligible rows in the order produced
by `ORDER BY RANDOM()` — modelled by the parameter `shuffled`, an arbitrary
permutation of `eligiblePhotos` — limited to 2 (LIMIT 2).  Fewer than 2
rows yields the informational `allVoted` reply; otherwise both are sent
with vote buttons. -/
def start_voting (db : DB) (u : Nat) (shuffled : List Photo) : VotingOutcome :=
  if !db.anyActiveTournament then .noTournament
  else
    let participants := shuffled.take 2
    if participants.length < 2 then .allVoted
    else .pairSent participants

/-! ### Admin numeric configuration: `handle_user_state`
    (src/bot.py lines 2203-2269) -/

/-- `int(text)` for an optionally signed ASCII decimal string; any other
string raises `ValueError`, modelled as `none`.  (Python's `int` also
accepts underscores between digits and non-ASCII digits; the handlers
strip the text first, and no claim involves those forms.) -/
def pyInt (s : String) : Option Int :=
  match s.data with
  | [] => none
  | '-' :: rest =>
    if !rest.isEmpty && rest.all (·.isDigit) then
      some (-(rest.foldl (fun acc c => 10 * acc + (c.toNat - 48)) 0 : Nat))
    else none
  | '+' :: rest =>
    if !rest.isEmpty && rest.all (·.isDigit) then
      some ((rest.foldl (fun acc c => 10 * acc + (c.toNat - 48)) 0 : Nat))
    else none
  | l =>
    if l.all (·.isDigit) then
      some ((l.foldl (fun acc c => 10 * acc + (c.toNat - 48)) 0 : Nat))
    else none

/-- The user-visible outcome of `handle_user_state`. -/
inductive ConfigOutcome
  | delegatedToName (o : NameOutcome)
  | enterNumber
  | votesRange
  | askDuration
  | durationRange
  | genericError
  | useButtons
deriving Repr, DecidableEq

/-- `handle_user_state` (src/bot.py lines 2203-2269), dispatching on the
current conversation state.  `WAITING_NAME` delegates to `handle_name`
(line 2212).  `WAITING_VOTES_COUNT` (lines 2213-2229): parse failure or a
value outside 1..1000 re-prompts leaving everything unchanged; on success
`user_data[user_id]['votes_count'] = votes` (line 2221) — a `KeyError`
caught by the outer except when the user has no bag — then the state moves
to `WAITING_TOURNAMENT_TIME`.  `WAITING_TOURNAMENT_TIME`
(lines 2230-2261): parse failure or a value outside 1..168 re-prompts
unchanged; on success the code runs `sqlite3.connect(DB_NAME)`
(line 2239) — `DB_NAME` is unbound, so `NameError` is raised — and even
with a connection the UPDATE at line 2244 names the columns
`duration_hours` and `active`, which `tournament_settings` does not have
(the schema at lines 136-144 calls them `tournament_duration` and
`is_active`), an `sqlite3.OperationalError`.  Either way the outer except
at line 2267 answers a generic error: the database is untouched, the state
is NOT reset (the `set_user_state` at line 2251 is never reached).  Any
other state is reset to `START` with a "use the buttons" reply
(lines 2262-2266). -/
def handle_user_state (states : StateMap) (data : DataMap) (db : DB)
    (u : Nat) (text : String) : StateMap × DataMap × DB × ConfigOutcome :=
  match get_user_state states u with
  | .WAITING_NAME =>
    let r := handle_name states data u text
    (r.1, r.2.1, db, .delegatedToName r.2.2)
  | .WAITING_VOTES_COUNT =>
    match pyInt (pyStrip text) with
    | none => (states, data, db, .enterNumber)
    | some v =>
      if v < 1 || 1000 < v then (states, data, db, .votesRange)
      else
        match data u with
        | none => (states, data, db, .genericError)
        | some bag =>
          (fun x => if x = u then some .WAITING_TOURNAMENT_TIME else states x,
           fun x => if x = u then some { bag with votes_count := some v }
                    else data x,
           db, .askDuration)
  | .WAITING_TOURNAMENT_TIME =>
    match pyInt (pyStrip text) with
    | none => (states, data, db, .enterNumber)
    | some h =>
      if h < 1 || 168 < h then (states, data, db, .durationRange)
      else (states, data, db, .genericError)
  | _ =>
    (fun x => if x = u then some .START else states x,
     data, db, .useButtons)

/-! ## Concrete fixtures used by witnesses and counterexamples -/

/-- A concrete approved contestant with no votes. -/
def samplePhoto : Photo := ⟨1, "Алиса", "file-1", "photo", true, 0⟩

/-- A concrete active tournament row (threshold 15, duration 24). -/
def sampleTournament : TournamentSettings := ⟨1, 15, 24, true, 0⟩

/-- A database with one approved contestant, one active tournament, and no
votes: every precondition of a successful vote holds here. -/
def sampleDB : DB := ⟨[samplePhoto], [], [], [sampleTournament], 2, 1, 2⟩

/-- `sampleDB` after the vote (42, 1) that the spec says `cast_vote` should
record. -/
def sampleDBAfterVote : DB := { sampleDB with user_votes := [⟨42, 1⟩] }

/-- A state map where user 5 is mid-submission and user 9 is absent. -/
def exStates : StateMap := fun x => if x = 5 then some .WAITING_NAME else none

/-- A data map where user 5 has an empty bag and user 9 is absent. -/
def exData : DataMap := fun x => if x = 5 then some {} else none

/-! ## Claims -/

/-- C1: For every voter and contestant, when a tournament is active, the
contestant approved and the voter fresh, `cast_vote` should insert the Vote,
increment the count in one transaction and return the post-increment count,
and fail without mutating state otherwise.  The code instead answers the
generic voting error and leaves the database untouched on EVERY call —
`handle_vote` opens with `sqlite3.connect(DB_NAME)` where `DB_NAME` is an
unbound name (and its duplicate-vote check reads the nonexistent column
`user_votes.id`) — shown here both universally and on a concrete database
where all of the claim's success preconditions hold. -/
theorem handle_vote_never_votes :
    (∀ (db : DB) (u pid : Nat),
      handle_vote db u pid = (db, VoteOutcome.genericError)) ∧
    (sampleDB.anyActiveTournament = true ∧ samplePhoto.approved = true ∧
     sampleDB.hasVoted 42 1 = false ∧
     handle_vote sampleDB 42 1 = (sampleDB, VoteOutcome.genericError)) :=
  ⟨fun _ _ _ => rfl, by decide, by decide, by decide, rfl⟩

/-- C2: At most one Vote per (voter, contestant) pair, enforced by the
`PRIMARY KEY (user_id, photo_id)` constraint of the `user_votes` table: an
INSERT against the constraint preserves pair-uniqueness and a duplicate
INSERT is refused by the store.  The second half of the claim fails in the
code: a repeated `handle_vote` call leaves the count unchanged (nothing is
ever mutated) but answers the generic error, not the already-voted notice,
because every call dies on the unbound `DB_NAME` before the duplicate
check (which itself reads the nonexistent column `user_votes.id`). -/
theorem user_votes_unique_and_second_vote :
    (∀ (db : DB) (u pid : Nat), votesUnique db →
      (db.hasVoted u pid = true → insert_user_vote db u pid = none) ∧
      (∀ db', insert_user_vote db u pid = some db' →
        votesUnique db' ∧ db'.hasVoted u pid = true)) ∧
    (∀ (db : DB) (u pid : Nat),
      (handle_vote db u pid).1 = db ∧
      handle_vote (handle_vote db u pid).1 u pid =
        (db, VoteOutcome.genericError)) := by
  constructor
  · intro db u pid hu
    constructor
    · intro hv
      simp [insert_user_vote, hv]
    · intro db' hins
      by_cases hv : db.hasVoted u pid = true
      · simp [insert_user_vote, hv] at hins
      · simp [insert_user_vote, hv] at hins
        subst hins
        constructor
        · show List.Pairwise _ (db.user_votes ++ [⟨u, pid⟩])
          rw [List.pairwise_append]
          refine ⟨hu, List.pairwise_singleton _ _, ?_⟩
          intro a ha b hb hcon
          simp only [List.mem_singleton] at hb
          subst hb
          apply hv
          simp only [DB.hasVoted, List.any_eq_true]
          exact ⟨a, ha, by simp [hcon.1, hcon.2]⟩
        · simp [DB.hasVoted, List.any_eq_true]
  · intro db u pid
    exact ⟨rfl, rfl⟩

/-- Witness for C2's theorem at a concrete input: the fresh INSERT of
(42, 1) into `sampleDB` succeeds and the result is still pair-unique and
records the vote. -/
theorem user_votes_unique_witness :
    votesUnique sampleDBAfterVote ∧ sampleDBAfterVote.hasVoted 42 1 = true :=
  (user_votes_unique_and_second_vote.1 sampleDB 42 1 List.Pairwise.nil).2
    sampleDBAfterVote (by decide)

/-- C10: `/start` resets any non-IDLE user to IDLE and deletes their data
bag (leaving every other user's entries alone), and leaves an already-IDLE
user's state and bag unchanged. -/
theorem start_command_resets :
    ∀ (states : StateMap) (data : DataMap) (u : Nat),
      (get_user_state states u ≠ .START →
        (start_command states data u).1 u = some .START ∧
        (start_command states data u).2 u = none ∧
        ∀ v, v ≠ u → (start_command states data u).1 v = states v ∧
                     (start_command states data u).2 v = data v) ∧
      (get_user_state states u = .START →
        start_command states data u = (states, data)) := by
  intro states data u
  constructor
  · intro h
    unfold start_command
    match hs : states u with
    | none => exact absurd (by simp [get_user_state, hs]) h
    | some s =>
      have hne : s ≠ .START := fun e => h (by simp [get_user_state, hs, e])
      simp only [hne, ne_eq, not_false_eq_true, if_true]
      refine ⟨by simp, by simp, ?_⟩
      intro v hv
      constructor <;> simp [hv]
  · intro h
    unfold start_command
    match hs : states u with
    | none => rfl
    | some s =>
      have : s = .START := by simpa [get_user_state, hs] using h
      simp [this]

/-- Witness for C10's theorem: user 5 (mid-submission) is reset and their
bag dropped; user 9 (absent, hence IDLE) sees no change. -/
theorem start_command_resets_witness :
    ((start_command exStates exData 5).1 5 = some UserState.START ∧
     (start_command exStates exData 5).2 5 = none) ∧
    start_command exStates exData 9 = (exStates, exData) :=
  ⟨⟨((start_command_resets exStates exData 5).1 (by decide)).1,
    ((start_command_resets exStates exData 5).1 (by decide)).2.1⟩,
   (start_command_resets exStates exData 9).2 (by decide)⟩

/-! ## Helper lemmas for the winner scan -/

lemma foldl_maxStep_isSome (l : List Photo) (p : Photo) :
    (l.foldl maxStep (some p)).isSome := by
  induction l generalizing p with
  | nil => rfl
  | cons q l ih =>
    simp only [List.foldl_cons]
    by_cases h : p.votes < q.votes
    · simpa [maxStep, h] using ih q
    · simpa [maxStep, h] using ih p

lemma foldl_maxStep_mem (l : List Photo) (acc : Option Photo) (w : Photo)
    (h : l.foldl maxStep acc = some w) : acc = some w ∨ w ∈ l := by
  induction l generalizing acc with
  | nil => exact Or.inl h
  | cons q l ih =>
    simp only [List.foldl_cons] at h
    rcases ih (maxStep acc q) h with h1 | h1
    · cases acc with
      | none =>
        simp only [maxStep, Option.some.injEq] at h1
        exact Or.inr (by simp [h1])
      | some a =>
        by_cases hv : a.votes < q.votes
        · simp only [maxStep, hv, if_true, Option.some.injEq] at h1
          exact Or.inr (by simp [h1])
        · simp only [maxStep, hv, if_false, Option.some.injEq] at h1
          exact Or.inl (by simp [h1])
    · exact Or.inr (List.mem_cons_of_mem _ h1)

lemma foldl_maxStep_ge (l : List Photo) (acc : Option Photo) (w : Photo)
    (h : l.foldl maxStep acc = some w) :
    (∀ a, acc = some a → a.votes ≤ w.votes) ∧ ∀ q ∈ l, q.votes ≤ w.votes := by
  induction l generalizing acc with
  | nil =>
    simp only [List.foldl_nil] at h
    subst h
    exact ⟨fun a ha => by cases ha; exact le_refl _, by simp⟩
  | cons q l ih =>
    simp only [List.foldl_cons] at h
    obtain ⟨hacc, hl⟩ := ih (maxStep acc q) h
    have hq : q.votes ≤ w.votes := by
      cases acc with
      | none => exact hacc q rfl
      | some a =>
        by_cases hv : a.votes < q.votes
        · exact hacc q (by simp [maxStep, hv])
        · exact le_trans (le_of_not_lt hv) (hacc a (by simp [maxStep, hv]))
    refine ⟨?_, ?_⟩
    · intro a ha
      cases acc with
      | none => cases ha
      | some b =>
        cases ha
        by_cases hv : a.votes < q.votes
        · exact le_trans (le_of_lt hv) hq
        · exact hacc a (by simp [maxStep, hv])
    · intro x hx
      rcases List.mem_cons.mp hx with h1 | h1
      · rw [h1]; exact hq
      · exact hl x h1

lemma selectWinner_spec (photos : List Photo) (w : Photo)
    (h : selectWinner photos = some w) :
    w ∈ photos ∧ w.approved = true ∧
      ∀ q ∈ photos, q.approved = true → q.votes ≤ w.votes := by
  unfold selectWinner at h
  rcases foldl_maxStep_mem _ _ _ h with h1 | h1
  · cases h1
  · have hm := List.mem_filter.mp h1
    refine ⟨hm.1, by simpa using hm.2, ?_⟩
    intro q hq hap
    exact (foldl_maxStep_ge _ _ _ h).2 q (List.mem_filter.mpr ⟨hq, by simp [hap]⟩)

lemma selectWinner_isSome (photos : List Photo)
    (h : photos.filter (·.approved) ≠ []) : (selectWinner photos).isSome := by
  unfold selectWinner
  rcases hf : photos.filter (·.approved) with _ | ⟨a, l⟩
  · exact absurd hf h
  · rw [hf]
    simpa using foldl_maxStep_isSome l a

lemma deactivateAll_filter (l : List TournamentSettings) :
    (l.map fun t => if t.is_active then { t with is_active := false } else t).filter
      (·.is_active) = [] := by
  induction l with
  | nil => rfl
  | cons a l ih =>
    by_cases h : a.is_active
    · simpa [List.filter_cons, h] using ih
    · simpa [List.filter_cons, h] using ih

/-- `true` exactly on the success outcome of a vote. -/
def VoteOutcome.isSuccess : VoteOutcome → Bool
  | .success _ _ => true
  | _ => false

/-- C3: if some approved contestant has reached the active tournament's
threshold, win-condition evaluation announces a winner that is an approved
contestant of maximal vote count and deactivates every active tournament
row; with no active tournament the evaluation is a no-op; and no vote
callback on the deactivated state ever reports success. -/
theorem check_tournament_completion_spec :
    ∀ db : DB,
      (db.anyActiveTournament = false →
        check_tournament_completion db = (db, none)) ∧
      (∀ t ∈ db.tournament_settings, t.is_active = true →
       ∀ p ∈ db.photos, p.approved = true → t.required_votes ≤ p.votes →
        (check_tournament_completion db).1.activeCount = 0 ∧
        ∃ w, (check_tournament_completion db).2 = some w ∧ w ∈ db.photos ∧
          w.approved = true ∧
          ∀ q ∈ db.photos, q.approved = true → q.votes ≤ w.votes) ∧
      (∀ u pid,
        ((handle_vote (check_tournament_completion db).1 u pid).2).isSuccess
          = false) := by
  intro db
  refine ⟨?_, ?_, fun u pid => rfl⟩
  · intro h
    have hthr : db.thresholdReached = false := by
      simp only [DB.anyActiveTournament, List.any_eq_false] at h
      simp only [DB.thresholdReached, List.any_eq_false]
      intro p _
      simp only [Bool.and_eq_true, List.any_eq_true, not_exists]
      rintro ⟨_, t, ht, hta1, _⟩
      exact absurd hta1 (by simpa using h t ht)
    simp [check_tournament_completion, hthr]
  · intro t ht hta p hp hap hreq
    have hthr : db.thresholdReached = true := by
      simp only [DB.thresholdReached, List.any_eq_true]
      refine ⟨p, hp, ?_⟩
      simp only [hap, Bool.true_and, List.any_eq_true]
      exact ⟨t, ht, by simp [hta, hreq]⟩
    have hfil : db.photos.filter (·.approved) ≠ [] := by
      intro hnil
      have : p ∈ db.photos.filter (·.approved) :=
        List.mem_filter.mpr ⟨hp, by simp [hap]⟩
      rw [hnil] at this
      cases this
    obtain ⟨w, hw⟩ := Option.isSome_iff_exists.mp (selectWinner_isSome _ hfil)
    have hws := selectWinner_spec _ _ hw
    refine ⟨?_, w, ?_, hws.1, hws.2.1, hws.2.2⟩
    · simp [check_tournament_completion, hthr, hw, DB.activeCount,
        DB.activeTournaments, deactivateAll_filter]
    · simp [check_tournament_completion, hthr, hw]

/-- A contestant that has reached the threshold of `sampleTournament`. -/
def wonPhoto : Photo := ⟨1, "Алиса", "file-1", "photo", true, 15⟩

/-- A database in which `wonPhoto` has reached the active threshold. -/
def wonDB : DB := ⟨[wonPhoto], [], [], [sampleTournament], 2, 1, 2⟩

/-- A database with contestants but no tournament rows at all. -/
def noTournamentDB : DB := ⟨[samplePhoto], [], [], [], 2, 1, 1⟩

/-- Witness for C3's theorem: on `wonDB` (threshold 15 reached) the
evaluation deactivates everything, and on `noTournamentDB` it is a no-op. -/
theorem check_tournament_completion_witness :
    ((check_tournament_completion wonDB).1.activeCount = 0 ∧
     (check_tournament_completion wonDB).2 = some wonPhoto) ∧
    check_tournament_completion noTournamentDB = (noTournamentDB, none) :=
  ⟨⟨((check_tournament_completion_spec wonDB).2.1 sampleTournament
      (by decide) (by decide) wonPhoto (by decide) (by decide) (by decide)).1,
    by decide⟩,
   (check_tournament_completion_spec noTournamentDB).1 (by decide)⟩

/-! ## Helper lemmas for the moderation decision -/

lemma find?_setSuggestionStatus (l : List Suggestion) (sid : Nat) (st : String) :
    (setSuggestionStatus l sid st).find? (fun x => x.id == sid) =
      (l.find? (fun x => x.id == sid)).map fun x => { x with status := st } := by
  induction l with
  | nil => rfl
  | cons a l ih =>
    simp only [setSuggestionStatus, List.map_cons] at *
    by_cases h : a.id = sid
    · rw [if_pos h, List.find?_cons_of_pos _ (by simp [h]),
        List.find?_cons_of_pos _ (by simp [h])]
      simp [h]
    · rw [if_neg h, List.find?_cons_of_neg _ (by simp [h]),
        List.find?_cons_of_neg _ (by simp [h])]
      exact ih

lemma decision_notFound_eq (db : DB) (sid : Nat) (action : String)
    (fail : SqlFailure)
    (hf : db.suggestions.find? (fun x => x.id == sid) = none) :
    handle_suggestion_decision db ADMIN_ID action sid fail = (db, .notFound) := by
  simp [handle_suggestion_decision, hf]

lemma decision_nonPending_eq (db : DB) (sid : Nat) (action : String)
    (fail : SqlFailure) (s : Suggestion)
    (hf : db.suggestions.find? (fun x => x.id == sid) = some s)
    (hs : s.status ≠ "pending") :
    handle_suggestion_decision db ADMIN_ID action sid fail =
      (db, .alreadyProcessed) := by
  simp [handle_suggestion_decision, hf, hs]

lemma decision_accept_eq (db : DB) (sid : Nat) (s : Suggestion)
    (hf : db.suggestions.find? (fun x => x.id == sid) = some s)
    (hs : s.status = "pending") :
    handle_suggestion_decision db ADMIN_ID "accept" sid noFailure =
      ({ db with
          photos := db.photos ++
            [⟨db.photos_seq, s.name, s.file_id, s.media_type, true, 0⟩],
          photos_seq := db.photos_seq + 1,
          suggestions := setSuggestionStatus db.suggestions sid "accepted" },
       .accepted s.name) := by
  simp [handle_suggestion_decision, hf, hs, noFailure]

lemma decision_accept_fail_eq (db : DB) (sid : Nat) (s : Suggestion)
    (fail : SqlFailure)
    (hf : db.suggestions.find? (fun x => x.id == sid) = some s)
    (hs : s.status = "pending")
    (hfail : fail.insert_photo_fails = true ∨ fail.update_status_fails = true) :
    handle_suggestion_decision db ADMIN_ID "accept" sid fail =
      (db, .dbError) := by
  rcases hfail with h | h <;> simp [handle_suggestion_decision, hf, hs, h]

lemma decision_reject_eq (db : DB) (sid : Nat) (s : Suggestion)
    (hf : db.suggestions.find? (fun x => x.id == sid) = some s)
    (hs : s.status = "pending") :
    handle_suggestion_decision db ADMIN_ID "reject" sid noFailure =
      ({ db with
          suggestions := setSuggestionStatus db.suggestions sid "rejected" },
       .rejected s.name) := by
  simp [handle_suggestion_decision, hf, hs, noFailure]

/-- C4: a decision on a suggestion that is not found, or whose status is no
longer "pending", is a no-op with a user-visible notice; accepting the same
suggestion twice adds exactly one contestant, the second call is a no-op
answered with the already-processed notice, and the suggestion's status is
"accepted" after both calls. -/
theorem decision_noop_and_idempotent :
    ∀ (db : DB) (sid : Nat) (action : String) (fail : SqlFailure),
      (db.suggestions.find? (fun x => x.id == sid) = none →
        handle_suggestion_decision db ADMIN_ID action sid fail =
          (db, .notFound)) ∧
      (∀ s, db.suggestions.find? (fun x => x.id == sid) = some s →
        s.status ≠ "pending" →
        handle_suggestion_decision db ADMIN_ID action sid fail =
          (db, .alreadyProcessed)) ∧
      (∀ s, db.suggestions.find? (fun x => x.id == sid) = some s →
        s.status = "pending" →
        handle_suggestion_decision
            (handle_suggestion_decision db ADMIN_ID "accept" sid noFailure).1
            ADMIN_ID "accept" sid noFailure =
          ((handle_suggestion_decision db ADMIN_ID "accept" sid noFailure).1,
           .alreadyProcessed) ∧
        (handle_suggestion_decision db ADMIN_ID "accept" sid
            noFailure).1.photos.length = db.photos.length + 1 ∧
        ∀ s', (handle_suggestion_decision db ADMIN_ID "accept" sid
            noFailure).1.suggestions.find? (fun x => x.id == sid) = some s' →
          s'.status = "accepted") := by
  intro db sid action fail
  refine ⟨decision_notFound_eq db sid action fail,
    fun s => decision_nonPending_eq db sid action fail s, ?_⟩
  intro s hf hs
  rw [decision_accept_eq db sid s hf hs]
  have hfind :
      (setSuggestionStatus db.suggestions sid "accepted").find?
        (fun x => x.id == sid) = some { s with status := "accepted" } := by
    rw [find?_setSuggestionStatus, hf]
    rfl
  refine ⟨?_, by simp, ?_⟩
  · exact decision_nonPending_eq _ sid "accept" noFailure _ hfind (by simp)
  · intro s' hs'
    rw [hfind] at hs'
    cases hs'
    rfl

/-- A concrete pending suggestion and a database holding only it. -/
def sampleSuggestion : Suggestion := ⟨1, "Анна", "file-2", "photo", 77, "pending"⟩

/-- A database with a single pending suggestion. -/
def suggestionDB : DB := ⟨[], [sampleSuggestion], [], [], 1, 2, 1⟩

/-- Witness for C4's theorem: accepting suggestion 1 of `suggestionDB`
twice adds exactly one contestant and the second call is the
already-processed no-op. -/
theorem decision_noop_and_idempotent_witness :
    handle_suggestion_decision
        (handle_suggestion_decision suggestionDB ADMIN_ID "accept" 1
          noFailure).1 ADMIN_ID "accept" 1 noFailure =
      ((handle_suggestion_decision suggestionDB ADMIN_ID "accept" 1
          noFailure).1, DecisionOutcome.alreadyProcessed) ∧
    (handle_suggestion_decision suggestionDB ADMIN_ID "accept" 1
        noFailure).1.photos.length = suggestionDB.photos.length + 1 :=
  ⟨((decision_noop_and_idempotent suggestionDB 1 "accept" noFailure).2.2
      sampleSuggestion (by decide) rfl).1,
   ((decision_noop_and_idempotent suggestionDB 1 "accept" noFailure).2.2
      sampleSuggestion (by decide) rfl).2.1⟩

/-- C5: accepting a pending suggestion creates, in the same transaction,
the contestant row (approved, zero votes, name and media copied from the
suggestion) and sets the suggestion's status to "accepted"; if either
statement of that transaction fails, the whole transaction is rolled back
and the suggestion is still pending; rejecting sets the status to
"rejected" and creates no contestant. -/
theorem decision_transactional :
    ∀ (db : DB) (sid : Nat) (s : Suggestion),
      db.suggestions.find? (fun x => x.id == sid) = some s →
      s.status = "pending" →
      ((handle_suggestion_decision db ADMIN_ID "accept" sid
          noFailure).1.photos = db.photos ++
            [⟨db.photos_seq, s.name, s.file_id, s.media_type, true, 0⟩] ∧
       (handle_suggestion_decision db ADMIN_ID "accept" sid
          noFailure).1.suggestions =
            setSuggestionStatus db.suggestions sid "accepted" ∧
       (handle_suggestion_decision db ADMIN_ID "accept" sid noFailure).2 =
         .accepted s.name) ∧
      (∀ fail : SqlFailure,
        fail.insert_photo_fails = true ∨ fail.update_status_fails = true →
        handle_suggestion_decision db ADMIN_ID "accept" sid fail =
          (db, .dbError) ∧
        (handle_suggestion_decision db ADMIN_ID "accept" sid
            fail).1.suggestions.find? (fun x => x.id == sid) = some s) ∧
      ((handle_suggestion_decision db ADMIN_ID "reject" sid
          noFailure).1.photos = db.photos ∧
       (handle_suggestion_decision db ADMIN_ID "reject" sid
          noFailure).1.suggestions =
            setSuggestionStatus db.suggestions sid "rejected" ∧
       (handle_suggestion_decision db ADMIN_ID "reject" sid noFailure).2 =
         .rejected s.name) := by
  intro db sid s hf hs
  refine ⟨?_, ?_, ?_⟩
  · rw [decision_accept_eq db sid s hf hs]
    exact ⟨rfl, rfl, rfl⟩
  · intro fail hfail
    rw [decision_accept_fail_eq db sid s fail hf hs hfail]
    exact ⟨rfl, hf⟩
  · rw [decision_reject_eq db sid s hf hs]
    exact ⟨rfl, rfl, rfl⟩

/-- Witness for C5's theorem: on `suggestionDB`, accept creates the
contestant row and marks the suggestion accepted; an injected failure of
the status UPDATE rolls everything back; reject creates no contestant. -/
theorem decision_transactional_witness :
    (handle_suggestion_decision suggestionDB ADMIN_ID "accept" 1
        noFailure).1.photos = [⟨1, "Анна", "file-2", "photo", true, 0⟩] ∧
    handle_suggestion_decision suggestionDB ADMIN_ID "accept" 1
        ⟨false, true⟩ = (suggestionDB, DecisionOutcome.dbError) ∧
    (handle_suggestion_decision suggestionDB ADMIN_ID "reject" 1
        noFailure).1.photos = [] :=
  ⟨((decision_transactional suggestionDB 1 sampleSuggestion (by decide)
      rfl).1.1).trans (by decide),
   ((decision_transactional suggestionDB 1 sampleSuggestion (by decide)
      rfl).2.1 ⟨false, true⟩ (Or.inr rfl)).1,
   ((decision_transactional suggestionDB 1 sampleSuggestion (by decide)
      rfl).2.2.1).trans (by decide)⟩

/-! ## Name validation (C6) -/

/-- A state map where user 7 is in `WAITING_NAME`. -/
def nameStates : StateMap := fun x => if x = 7 then some .WAITING_NAME else none

/-- A data map where user 7 has an empty bag. -/
def nameData : DataMap := fun x => if x = 7 then some {} else none

/-- Counterexample to C6 as stated: the text "αβ" has length 2 and every
character is a letter (Greek script), so the claim says the state moves to
`WAITING_MEDIA`; the regex at src/bot.py line 240 admits only Cyrillic and
Latin letters, so the code re-prompts and the state stays `WAITING_NAME`. -/
theorem handle_name_greek_letters_rejected :
    "αβ".length = 2 ∧
    (handle_name nameStates nameData 7 "αβ").2.2 = NameOutcome.charsetError ∧
    (handle_name nameStates nameData 7 "αβ").1 7 = some UserState.WAITING_NAME := by
  refine ⟨rfl, ?_, ?_⟩ <;> decide

/-- C6 (amended): in `WAITING_NAME` with a data bag present and an input
that is not the cancel sentinel, the state moves to `WAITING_MEDIA` with
the stripped name stored if and only if the stripped text has length in
[2, 50] and every character is a Cyrillic letter (а-я, А-Я, ё, Ё), an
ASCII Latin letter, an ASCII digit, a whitespace character, or a hyphen;
otherwise the user is re-prompted and both maps are unchanged.
(`handle_name` performs no database operation on any path, so no
Suggestion is ever created by it.) -/
theorem handle_name_valid_iff :
    ∀ (states : StateMap) (data : DataMap) (u : Nat) (text : String)
      (bag : UserData),
      data u = some bag →
      pyLower (pyStrip text) ≠ "❌ отмена" →
      (validName (pyStrip text) = true →
        (handle_name states data u text).1 u = some .WAITING_MEDIA ∧
        (handle_name states data u text).2.1 u =
          some { bag with name := some (pyStrip text) } ∧
        (handle_name states data u text).2.2 = .stored) ∧
      (validName (pyStrip text) = false →
        (handle_name states data u text).1 = states ∧
        (handle_name states data u text).2.1 = data ∧
        (handle_name states data u text).2.2 ≠ .stored) := by
  intro states data u text bag hbag hcancel
  simp only [handle_name]
  rw [if_neg hcancel]
  constructor
  · intro hv
    simp only [validName, Bool.and_eq_true, decide_eq_true_eq] at hv
    obtain ⟨⟨h1, h2⟩, h3⟩ := hv
    rw [if_neg (by simp only [Bool.or_eq_true, decide_eq_true_eq]; omega),
      if_neg (by simp [h3]), hbag]
    exact ⟨by simp, by simp, rfl⟩
  · intro hv
    simp only [validName, Bool.and_eq_false_iff] at hv
    by_cases hlen : ((pyStrip text).length < 2 || 50 < (pyStrip text).length) = true
    · rw [if_pos hlen]
      exact ⟨rfl, rfl, by simp⟩
    · rw [if_neg hlen]
      have h3 : (pyStrip text).data.all allowedNameChar = false := by
        simp only [Bool.or_eq_true, decide_eq_true_eq, not_or, not_lt] at hlen
        rcases hv with hv | hv
        · rcases hv with hv | hv <;>
            { exfalso; simp only [decide_eq_false_iff_not, not_le] at hv; omega }
        · exact hv
      rw [if_pos (by simp [h3])]
      exact ⟨rfl, rfl, by simp⟩

/-- Witness for C6's amended theorem: " Анна-Мария 7 " is stripped and
stored, moving user 7 to `WAITING_MEDIA`; "Анна\u00A0Мария" (a no-break
space separator, whitespace for Python's `\s`) is likewise accepted; "!!"
is re-prompted with both maps unchanged. -/
theorem handle_name_valid_iff_witness :
    ((handle_name nameStates nameData 7 " Анна-Мария 7 ").1 7 =
       some UserState.WAITING_MEDIA ∧
     (handle_name nameStates nameData 7 " Анна-Мария 7 ").2.1 7 =
       some { name := some "Анна-Мария 7" }) ∧
    (handle_name nameStates nameData 7 "Анна\u00A0Мария").1 7 =
      some UserState.WAITING_MEDIA ∧
    (handle_name nameStates nameData 7 "!!").1 = nameStates ∧
    (handle_name nameStates nameData 7 "!!").2.1 = nameData :=
  ⟨⟨((handle_name_valid_iff nameStates nameData 7 " Анна-Мария 7 " {}
        (by decide) (by decide)).1 (by decide)).1,
    ((handle_name_valid_iff nameStates nameData 7 " Анна-Мария 7 " {}
        (by decide) (by decide)).1 (by decide)).2.1⟩,
   ((handle_name_valid_iff nameStates nameData 7 "Анна\u00A0Мария" {}
        (by decide) (by decide)).1 (by decide)).1,
   ((handle_name_valid_iff nameStates nameData 7 "!!" {}
        (by decide) (by decide)).2 (by decide)).1,
   ((handle_name_valid_iff nameStates nameData 7 "!!" {}
        (by decide) (by decide)).2 (by decide)).2.1⟩

/-! ## Tournament singleton invariant (C7) -/

lemma activeTournaments_nil (db : DB) (h : db.anyActiveTournament = false) :
    db.activeTournaments = [] := by
  simp only [DB.anyActiveTournament, List.any_eq_false] at h
  simp only [DB.activeTournaments, List.filter_eq_nil_iff]
  intro a ha
  simpa using h a ha

lemma filter_active_map_le (l : List TournamentSettings)
    (f : TournamentSettings → TournamentSettings)
    (hf : ∀ t, (f t).is_active = true → t.is_active = true) :
    ((l.map f).filter (·.is_active)).length ≤
      (l.filter (·.is_active)).length := by
  induction l with
  | nil => exact le_refl _
  | cons a l ih =>
    simp only [List.map_cons, List.filter_cons]
    by_cases h : (f a).is_active = true
    · rw [if_pos (by simpa using h), if_pos (by simpa using hf a h)]
      simpa using ih
    · rw [if_neg (by simpa using h)]
      by_cases h2 : a.is_active = true
      · rw [if_pos (by simpa using h2)]
        exact le_trans ih (by simp)
      · rw [if_neg (by simpa using h2)]
        exact ih

lemma handle_suggestion_decision_tournaments (db : DB) (caller : Nat)
    (action : String) (sid : Nat) (fail : SqlFailure) :
    (handle_suggestion_decision db caller action sid fail).1.tournament_settings
      = db.tournament_settings := by
  unfold handle_suggestion_decision
  repeat' split
  all_goals rfl

lemma handle_user_state_db (states : StateMap) (data : DataMap) (db : DB)
    (u : Nat) (text : String) :
    (handle_user_state states data db u text).2.2.1 = db := by
  unfold handle_user_state
  repeat' split
  all_goals rfl

lemma stop_tournament_activeCount (db : DB) :
    (stop_tournament db).1.activeCount ≤ db.activeCount := by
  unfold stop_tournament
  split
  · exact le_refl _
  · next t _ =>
    simp only [DB.activeCount, DB.activeTournaments]
    exact filter_active_map_le _ _ fun r hr => by
      by_cases h : r.id = t.id
      · simp [h] at hr
      · simpa [h] using hr

lemma check_tournament_completion_activeCount (db : DB) :
    (check_tournament_completion db).1.activeCount ≤ db.activeCount := by
  unfold check_tournament_completion
  split
  · split
    · simp only [DB.activeCount, DB.activeTournaments]
      exact filter_active_map_le _ _ fun r hr => by
        by_cases h2 : r.is_active = true
        · exact h2
        · simp [h2] at hr
    · exact le_refl _
  · exact le_refl _

/-- C7: starting a tournament fails without change when one is active or
when fewer than 2 approved contestants exist; on success the new
configuration row (threshold 15, duration 24, start timestamp now) is the
unique active row; and the at-most-one-active-row invariant is preserved
by every modelled operation. -/
theorem start_new_tournament_spec :
    ∀ (db : DB) (now : Nat),
      (db.anyActiveTournament = true →
        start_new_tournament db now = (db, .alreadyActive)) ∧
      (db.anyActiveTournament = false → db.countApproved < 2 →
        start_new_tournament db now = (db, .notEnoughParticipants)) ∧
      (db.anyActiveTournament = false → 2 ≤ db.countApproved →
        (start_new_tournament db now).2 = .started ∧
        (start_new_tournament db now).1.activeTournaments =
          [⟨db.tournament_seq, 15, 24, true, now⟩]) ∧
      (db.activeCount ≤ 1 →
        (start_new_tournament db now).1.activeCount ≤ 1 ∧
        (stop_tournament db).1.activeCount ≤ 1 ∧
        (check_tournament_completion db).1.activeCount ≤ 1 ∧
        (∀ u pid, (handle_vote db u pid).1.activeCount ≤ 1) ∧
        (∀ caller action sid fail,
          (handle_suggestion_decision db caller action sid
            fail).1.activeCount ≤ 1) ∧
        (∀ states data u text,
          (handle_user_state states data db u
            text).2.2.1.activeCount ≤ 1)) := by
  intro db now
  refine ⟨?_, ?_, ?_, ?_⟩
  · intro h
    simp [start_new_tournament, h]
  · intro h h2
    simp [start_new_tournament, h, h2]
  · intro h h2
    have hnil := activeTournaments_nil db h
    constructor
    · simp [start_new_tournament, h, Nat.not_lt.mpr h2]
    · simp only [start_new_tournament, h, Bool.false_eq_true, if_false,
        Nat.not_lt.mpr h2]
      simp only [DB.activeTournaments] at hnil ⊢
      rw [List.filter_append, hnil]
      rfl
  · intro h
    refine ⟨?_, ?_, ?_, fun u pid => h, ?_, ?_⟩
    · by_cases ha : db.anyActiveTournament = true
      · simpa [start_new_tournament, ha] using h
      · have hnil := activeTournaments_nil db (by simpa using ha)
        by_cases h2 : db.countApproved < 2
        · simpa [start_new_tournament, (by simpa using ha : db.anyActiveTournament = false), h2] using h
        · simp only [start_new_tournament,
            (by simpa using ha : db.anyActiveTournament = false),
            Bool.false_eq_true, if_false, h2]
          simp only [DB.activeCount, DB.activeTournaments] at hnil ⊢
          rw [List.filter_append, hnil]
          simp
    · exact le_trans (stop_tournament_activeCount db) h
    · exact le_trans (check_tournament_completion_activeCount db) h
    · intro caller action sid fail
      simp only [DB.activeCount, DB.activeTournaments,
        handle_suggestion_decision_tournaments]
      exact h
    · intro states data u text
      rw [handle_user_state_db]
      exact h

/-- A second approved contestant. -/
def photoB : Photo := ⟨2, "Вера", "file-3", "video", true, 0⟩

/-- A database with two approved contestants and no tournament rows. -/
def twoPhotoDB : DB := ⟨[samplePhoto, photoB], [], [], [], 3, 1, 1⟩

/-- Witness for C7's theorem: starting on `sampleDB` (already active)
fails unchanged; starting on `twoPhotoDB` succeeds and its unique active
row is the freshly inserted ⟨1, 15, 24, true, 100⟩. -/
theorem start_new_tournament_witness :
    start_new_tournament sampleDB 5 = (sampleDB, StartOutcome.alreadyActive) ∧
    (start_new_tournament twoPhotoDB 100).2 = StartOutcome.started ∧
    (start_new_tournament twoPhotoDB 100).1.activeTournaments =
      [⟨1, 15, 24, true, 100⟩] :=
  ⟨(start_new_tournament_spec sampleDB 5).1 (by decide),
   ((start_new_tournament_spec twoPhotoDB 100).2.2.1 (by decide)
     (by decide)).1,
   ((start_new_tournament_spec twoPhotoDB 100).2.2.1 (by decide)
     (by decide)).2⟩

/-! ## Pair selection (C8) -/

/-- C8: with `shuffled` any ordering of the eligible rows (the effect of
`ORDER BY RANDOM()`), the pair offered to a voter has at most 2 entries,
every entry is an approved contestant the voter has not yet voted for,
fewer than 2 entries come back exactly when fewer than 2 eligible
contestants remain, and in that case the caller replies "already voted for
everyone" — an informational message, not an error. -/
theorem start_voting_pair_spec :
    ∀ (db : DB) (u : Nat) (shuffled : List Photo),
      shuffled.Perm (eligiblePhotos db u) →
      (shuffled.take 2).length ≤ 2 ∧
      (∀ p ∈ shuffled.take 2,
        p ∈ db.photos ∧ p.approved = true ∧ db.hasVoted u p.id = false) ∧
      ((shuffled.take 2).length < 2 ↔ (eligiblePhotos db u).length < 2) ∧
      (db.anyActiveTournament = true →
        ((eligiblePhotos db u).length < 2 →
          start_voting db u shuffled = .allVoted) ∧
        (2 ≤ (eligiblePhotos db u).length →
          start_voting db u shuffled = .pairSent (shuffled.take 2))) := by
  intro db u shuffled hperm
  have hlen : shuffled.length = (eligiblePhotos db u).length := hperm.length_eq
  have htake : (shuffled.take 2).length = min 2 shuffled.length :=
    List.length_take 2 shuffled
  refine ⟨?_, ?_, ?_, ?_⟩
  · rw [htake]
    exact min_le_left _ _
  · intro p hp
    have hmem : p ∈ eligiblePhotos db u :=
      hperm.mem_iff.mp (List.take_subset 2 shuffled hp)
    have hm := List.mem_filter.mp hmem
    have hcond := hm.2
    simp only [Bool.and_eq_true, Bool.not_eq_true'] at hcond
    exact ⟨hm.1, hcond.1, hcond.2⟩
  · rw [htake, hlen]
    omega
  · intro hact
    constructor
    · intro hlt
      simp only [start_voting, hact, Bool.not_true, Bool.false_eq_true,
        if_false]
      rw [if_pos (by rw [htake, hlen]; omega)]
    · intro hge
      simp only [start_voting, hact, Bool.not_true, Bool.false_eq_true,
        if_false]
      rw [if_neg (by rw [htake, hlen]; omega)]

/-- A database where voter 9 has already voted for contestant 1, leaving
only contestant 2 eligible. -/
def pairDB : DB :=
  ⟨[samplePhoto, photoB], [], [⟨9, 1⟩], [sampleTournament], 3, 1, 2⟩

/-- Witness for C8's theorem: voter 9 has one eligible contestant left in
`pairDB`, so the voting command replies "already voted for everyone". -/
theorem start_voting_pair_witness :
    start_voting pairDB 9 [photoB] = VotingOutcome.allVoted :=
  ((start_voting_pair_spec pairDB 9 [photoB] (by decide)).2.2.2
    (by decide)).1 (by decide)

/-! ## Admin numeric configuration (C9) -/

/-- C9: both numeric steps re-prompt without any state change on a parse
failure or an out-of-range value, and the votes step stores the value and
advances to the duration step; but completing the duration step with a
valid value does NOT update the tournament configuration and does NOT
reset the state — the handler answers the generic error, because its
UPDATE runs against the unbound global `DB_NAME` (and names the
nonexistent columns `duration_hours` / `active`). -/
theorem config_flow_spec :
    ∀ (states : StateMap) (data : DataMap) (db : DB) (u : Nat)
      (text : String),
      (get_user_state states u = .WAITING_VOTES_COUNT →
        (pyInt (pyStrip text) = none →
          handle_user_state states data db u text =
            (states, data, db, .enterNumber)) ∧
        (∀ v, pyInt (pyStrip text) = some v → (v < 1 ∨ 1000 < v) →
          handle_user_state states data db u text =
            (states, data, db, .votesRange)) ∧
        (∀ v bag, pyInt (pyStrip text) = some v → 1 ≤ v → v ≤ 1000 →
          data u = some bag →
          (handle_user_state states data db u text).1 u =
            some .WAITING_TOURNAMENT_TIME ∧
          (handle_user_state states data db u text).2.1 u =
            some { bag with votes_count := some v } ∧
          (handle_user_state states data db u text).2.2.1 = db)) ∧
      (get_user_state states u = .WAITING_TOURNAMENT_TIME →
        (pyInt (pyStrip text) = none →
          handle_user_state states data db u text =
            (states, data, db, .enterNumber)) ∧
        (∀ h, pyInt (pyStrip text) = some h → (h < 1 ∨ 168 < h) →
          handle_user_state states data db u text =
            (states, data, db, .durationRange)) ∧
        (∀ h, pyInt (pyStrip text) = some h → 1 ≤ h → h ≤ 168 →
          handle_user_state states data db u text =
            (states, data, db, .genericError))) := by
  intro states data db u text
  constructor
  · intro hst
    refine ⟨?_, ?_, ?_⟩
    · intro hparse
      simp [handle_user_state, hst, hparse]
    · intro v hparse hrange
      have : (v < 1 || 1000 < v) = true := by
        rcases hrange with h | h <;> simp [h]
      simp [handle_user_state, hst, hparse, this]
    · intro v bag hparse h1 h2 hbag
      have : (v < 1 || 1000 < v) = false := by
        simp only [Bool.or_eq_false_iff, decide_eq_false_iff_not, not_lt]
        omega
      simp [handle_user_state, hst, hparse, this, hbag]
  · intro hst
    refine ⟨?_, ?_, ?_⟩
    · intro hparse
      simp [handle_user_state, hst, hparse]
    · intro h hparse hrange
      have : (h < 1 || 168 < h) = true := by
        rcases hrange with h3 | h3 <;> simp [h3]
      simp [handle_user_state, hst, hparse, this]
    · intro h hparse h1 h2
      have : (h < 1 || 168 < h) = false := by
        simp only [Bool.or_eq_false_iff, decide_eq_false_iff_not, not_lt]
        omega
      simp [handle_user_state, hst, hparse, this]

/-- The admin mid-configuration: duration step, votes value already
captured. -/
def cfgStates : StateMap :=
  fun x => if x = ADMIN_ID then some .WAITING_TOURNAMENT_TIME else none

/-- The admin's bag holding the captured votes value 50. -/
def cfgData : DataMap :=
  fun x => if x = ADMIN_ID then some { votes_count := some 50 } else none

/-- Witness for C9's theorem: the admin answers "24" at the duration step
over `sampleDB` (active tournament, threshold 15): the handler errors out,
the configuration keeps threshold 15 / duration 24, and the admin stays in
the duration step. -/
theorem config_flow_witness :
    handle_user_state cfgStates cfgData sampleDB ADMIN_ID "24" =
      (cfgStates, cfgData, sampleDB, ConfigOutcome.genericError) :=
  ((config_flow_spec cfgStates cfgData sampleDB ADMIN_ID "24").2
    (by decide)).2.2 24 (by decide) (by decide) (by decide)

end BeautyBattle
